import Mathlib

/-!
Verification development for the RAG system (ingest + query pipelines).

The query pipeline is embedded from src/retriever.py; the ingest pipeline
from src/ingestor.py and the CLI dispatch from main.py.  Remote services
(Bedrock embedding and generation endpoints) and the filesystem are
modelled as explicit environments; an uncaught Python exception is an
Except.error value.
-/

namespace Rag

/-- A retrieved langchain document: page content plus source/page metadata. -/
structure Chunk where
  page_content : String
  source : String
  page : Option Nat
deriving DecidableEq, Repr

/-- The usage metrics dictionary built on the successful generation path
(retriever.py lines 98-102): three keys, each possibly None. -/
structure Usage where
  input_tokens : Option Int
  output_tokens : Option Int
  latency_ms : Option Int
deriving DecidableEq, Repr

/-- The value stored under the "usage" key of the response dict: either the
empty dict written literally on the short-circuit paths, or the
three-field metrics dict. -/
inductive UsageDict where
  | empty : UsageDict
  | metrics : Usage → UsageDict
deriving DecidableEq, Repr

/-- The dict returned by run_query.  The "result" and "source_documents"
keys are present in every return statement of the source; the "usage" key
is absent from the empty-search return (retriever.py line 60), which the
Option models: none means the key is missing from the dict. -/
structure RagResponse where
  result : String
  source_documents : List Chunk
  usage : Option UsageDict
deriving DecidableEq, Repr

def indexNotFoundMessage : String :=
  "Index not found. Please run \x27python main.py ingest\x27 before querying."

def noRelevantMessage : String :=
  "No relevant documents found."

def llmUnavailableMessage : String :=
  "The language model is temporarily unavailable. Please try again later."

/-- Dict lookup on HTTP headers: headers.get(name), first binding wins. -/
def headerLookup (headers : List (String × String)) (name : String) : Option String :=
  (headers.find? (fun kv => kv.1 = name)).map (fun kv => kv.2)

/-- Digit-run parser for Python int(): a nonempty digit sequence, with
single underscores allowed between digits (Python 3.6+ literal rule). -/
def pyDigitsGo (acc : Nat) : List Char → Option Nat
  | [] => some acc
  | '_' :: c :: rest =>
      if c.isDigit then pyDigitsGo (acc * 10 + (c.toNat - 48)) rest else none
  | c :: rest =>
      if c.isDigit then pyDigitsGo (acc * 10 + (c.toNat - 48)) rest else none

def pyDigits : List Char → Option Nat
  | [] => none
  | c :: rest =>
      if c.isDigit then pyDigitsGo (c.toNat - 48) rest else none

/-- Python int(s) on a string: strip surrounding whitespace, optional sign,
then a digit run; None models the ValueError the source catches. -/
def pyInt (s : String) : Option Int :=
  match s.trim.toList with
  | '+' :: rest => (pyDigits rest).map Int.ofNat
  | '-' :: rest => (pyDigits rest).map (fun n => -(Int.ofNat n))
  | cs => (pyDigits cs).map Int.ofNat

/-- The _to_int helper of run_query: int(x) with every exception mapped to
None, so a missing header (None argument, a TypeError) and an unparseable
header (ValueError) both resolve to None. -/
def toIntOpt : Option String → Option Int
  | none => none
  | some s => pyInt s

def inputTokenHeader : String := "x-amzn-bedrock-input-token-count"

def outputTokenHeader : String := "x-amzn-bedrock-output-token-count"

def latencyHeader : String := "x-amzn-bedrock-invocation-latency"

/-- Usage extraction (retriever.py lines 87-102): read the three Bedrock
headers and convert each with _to_int. -/
def extractUsage (headers : List (String × String)) : Usage :=
  { input_tokens := toIntOpt (headerLookup headers inputTokenHeader)
    output_tokens := toIntOpt (headerLookup headers outputTokenHeader)
    latency_ms := toIntOpt (headerLookup headers latencyHeader) }

/-- Outcome of a successful invoke_model call.  outputText is the result of
reading and JSON-parsing the body and indexing results[0].outputText
(lines 82-84), a step outside the try block that may itself raise. -/
structure GenSuccess where
  outputText : Except String String
  headers : List (String × String)

/-- The environment of one run_query call: the persisted-index state and
the behaviour of the index load, the remote embedding call, the local
similarity search and the remote generation call. -/
structure QueryEnv where
  indexExists : Bool
  loadLocal : Except String Unit
  embedQuery : String → Except String (List Float)
  search : List Float → Nat → List Chunk
  invokeModel : String → Except String GenSuccess

/-- Remote service invocations, recorded in order. -/
inductive RemoteEvent where
  | embed : String → RemoteEvent
  | generate : String → RemoteEvent
deriving DecidableEq, Repr

/-- Context assembly (line 63): blank-line join of the retrieved texts in
search order. -/
def mkContext (docs : List Chunk) : String :=
  String.intercalate "\n\n" (docs.map (fun d => d.page_content))

/-- The prompt f-string of line 64. -/
def mkPrompt (question : String) (docs : List Chunk) : String :=
  "Context:\n" ++ mkContext docs ++ "\n\nQuestion: " ++ question ++ "\nAnswer:"

/-- run_query (retriever.py lines 32-108).  Returns the response dict, or
Except.error for an uncaught exception, paired with the trace of remote
calls made. -/
def run_query (question : String) (env : QueryEnv) :
    Except String RagResponse × List RemoteEvent :=
  if env.indexExists = false then
    (Except.ok { result := indexNotFoundMessage
                 source_documents := []
                 usage := some UsageDict.empty }, [])
  else
    match env.loadLocal with
    | Except.error e => (Except.error e, [])
    | Except.ok _ =>
      match env.embedQuery question with
      | Except.error e => (Except.error e, [RemoteEvent.embed question])
      | Except.ok qvec =>
        let docs := env.search qvec 3
        if docs.isEmpty then
          (Except.ok { result := noRelevantMessage
                       source_documents := docs
                       usage := none }, [RemoteEvent.embed question])
        else
          let prompt := mkPrompt question docs
          match env.invokeModel prompt with
          | Except.error _ =>
            (Except.ok { result := llmUnavailableMessage
                         source_documents := docs
                         usage := some UsageDict.empty },
             [RemoteEvent.embed question, RemoteEvent.generate prompt])
          | Except.ok g =>
            match g.outputText with
            | Except.error e =>
              (Except.error e,
               [RemoteEvent.embed question, RemoteEvent.generate prompt])
            | Except.ok t =>
              (Except.ok { result := t.trim
                           source_documents := docs
                           usage := some (UsageDict.metrics (extractUsage g.headers)) },
               [RemoteEvent.embed question, RemoteEvent.generate prompt])

/-- A loaded langchain document before splitting: content plus metadata. -/
structure Document where
  page_content : String
  source : String
  page : Option Nat
deriving DecidableEq, Repr

/-- Modelled from the spec: the Chunker (RecursiveCharacterTextSplitter) is
third-party library code absent from src/; only its configuration and call
site (ingestor.py lines 108-115) are in the repository.  The spec describes
it as splitting a document into overlapping text windows bounded by
chunk_size and chunk_overlap; this model cuts fixed windows of chunk_size
characters advancing by chunk_size - chunk_overlap, omitting the
separator-boundary snapping the spec's parenthetical allows.  Fuel bounds
the recursion; length + 1 fuel always suffices since the stride is positive
whenever overlap < size. -/
def chunkWindowsAux (size stride : Nat) : Nat → List Char → List (List Char)
  | 0, _ => []
  | fuel + 1, s =>
      if s.length ≤ size then [s]
      else s.take size :: chunkWindowsAux size stride fuel (s.drop stride)

def chunkWindows (size overlap : Nat) (s : List Char) : List (List Char) :=
  chunkWindowsAux size (size - overlap) (s.length + 1) s

/-- Modelled from the spec: split one Document into Chunks, each inheriting
the source/page metadata of its Document. -/
def chunkDoc (size overlap : Nat) (d : Document) : List Chunk :=
  (chunkWindows size overlap d.page_content.toList).map
    (fun cs => { page_content := String.mk cs, source := d.source, page := d.page })

/-- Modelled from the spec: splitter.split_documents over the loaded
documents, in order. -/
def splitDocuments (size overlap : Nat) (docs : List Document) : List Chunk :=
  docs.flatMap (chunkDoc size overlap)

/-- One directory entry as the loading loop sees it: whether it is a
regular file, its extension (file_path.suffix), and the outcome of the
format-specific loader.load() call on it — Except.error models the caught
per-file read exception. -/
instance exceptDecEq {ε α : Type} [DecidableEq ε] [DecidableEq α] :
    DecidableEq (Except ε α) := fun x y =>
  match x, y with
  | Except.error a, Except.error b =>
      if h : a = b then isTrue (by rw [h])
      else isFalse (by intro hc; cases hc; exact h rfl)
  | Except.error _, Except.ok _ => isFalse (by intro hc; cases hc)
  | Except.ok _, Except.error _ => isFalse (by intro hc; cases hc)
  | Except.ok a, Except.ok b =>
      if h : a = b then isTrue (by rw [h])
      else isFalse (by intro hc; cases hc; exact h rfl)

structure FileEntry where
  isFile : Bool
  ext : String
  load : Except String (List Document)
deriving DecidableEq

/-- A directory as Path.exists / Path.glob see it. -/
structure DirState where
  present : Bool
  entries : List FileEntry
deriving DecidableEq

/-- The environment of one load_and_split_documents call: the configured
DOCUMENT_PATH, the filesystem, the chunking configuration, and the process
clock (never consulted by loading or splitting). -/
structure LoadEnv where
  documentPath : String
  lookupDir : String → DirState
  chunkSize : Nat
  chunkOverlap : Nat
  now : Nat

/-- The fallback documents directory, BASE_DIR / "documents"
(ingestor.py lines 31-32). -/
def defaultDocDir : String := "<project_root>/documents"

/-- The candidate paths tried in order (ingestor.py lines 41-48): the
configured DOCUMENT_PATH when truthy, then the default directory. -/
def candidatePaths (env : LoadEnv) : List String :=
  (if env.documentPath ≠ "" then [env.documentPath] else []) ++ [defaultDocDir]

/-- The path-selection loop (lines 53-57): the first candidate that exists
and has at least one glob entry. -/
def chooseDir (env : LoadEnv) : Option String :=
  (candidatePaths env).find?
    (fun p => (env.lookupDir p).present && !(env.lookupDir p).entries.isEmpty)

/-- The per-entry step of the loading loop (lines 73-101): skip non-files,
dispatch on the lowercased extension, absorb a read failure into a skip. -/
def loadFile (f : FileEntry) : List Document :=
  if f.isFile = false then []
  else
    let e := f.ext.toLower
    if e = ".pdf" ∨ e = ".docx" ∨ e = ".doc" ∨ e = ".txt" then
      match f.load with
      | Except.ok ds => ds
      | Except.error _ => []
    else []

def collectDocs (d : DirState) : List Document :=
  d.entries.flatMap loadFile

/-- load_and_split_documents (ingestor.py lines 35-117): choose a documents
directory, load whatever is readable, return None when no directory was
usable or nothing loaded, else split into chunks. -/
def load_and_split_documents (env : LoadEnv) : Option (List Chunk) :=
  match chooseDir env with
  | none => none
  | some p =>
    let docs := collectDocs (env.lookupDir p)
    if docs.isEmpty then none
    else some (splitDocuments env.chunkSize env.chunkOverlap docs)

/-- The environment of one create_and_store_embeddings call: the combined
FAISS.from_documents step (remote embedding plus in-memory index build,
which may raise), whether save_local succeeds, and the previously
persisted index, if any. -/
structure IngestEnv where
  buildStore : List Chunk → Except String (List Chunk)
  saveOk : Bool
  disk : Option (List Chunk)

/-- create_and_store_embeddings (ingestor.py lines 120-154): everything is
inside one try block; any exception is logged and turned into a None
return.  Returns the function result paired with the persisted-index state
after the call; save_local runs only after from_documents succeeds. -/
def create_and_store_embeddings (chunks : List Chunk) (env : IngestEnv) :
    Option (List Chunk) × Option (List Chunk) :=
  match env.buildStore chunks with
  | Except.error _ => (none, env.disk)
  | Except.ok vs =>
      if env.saveOk then (some vs, some vs)
      else (none, env.disk)

/-- Outcome of the CLI ingest branch: exit code, final message printed,
persisted-index state afterwards. -/
structure IngestOutcome where
  exitCode : Nat
  message : String
  disk : Option (List Chunk)
deriving DecidableEq, Repr

/-- The ingest branch of main (main.py lines 81-90): exit 1 when loading
returned None or an empty chunk list, otherwise call
create_and_store_embeddings, ignore its result, print the completion
message and return (exit 0). -/
def mainIngest (loaded : Option (List Chunk)) (env : IngestEnv) : IngestOutcome :=
  match loaded with
  | none => { exitCode := 1, message := "No documents found to ingest.", disk := env.disk }
  | some chunks =>
    if chunks.isEmpty then
      { exitCode := 1, message := "No documents found to ingest.", disk := env.disk }
    else
      let r := create_and_store_embeddings chunks env
      { exitCode := 0, message := "Ingestion completed.", disk := r.2 }

/-! Concrete chunks, documents and environments used by witnesses. -/

def chunkA : Chunk := { page_content := "alpha facts", source := "a.txt", page := some 1 }

def chunkB : Chunk := { page_content := "beta facts", source := "b.pdf", page := none }

def envNoIndex : QueryEnv :=
  { indexExists := false
    loadLocal := Except.ok ()
    embedQuery := fun _ => Except.ok [1.0]
    search := fun _ _ => [chunkA]
    invokeModel := fun _ => Except.error "unreachable" }

def envGenFail : QueryEnv :=
  { indexExists := true
    loadLocal := Except.ok ()
    embedQuery := fun _ => Except.ok [1.0]
    search := fun _ _ => [chunkA, chunkB]
    invokeModel := fun _ => Except.error "ConnectionError" }

def envEmptySearch : QueryEnv :=
  { indexExists := true
    loadLocal := Except.ok ()
    embedQuery := fun _ => Except.ok [1.0]
    search := fun _ _ => []
    invokeModel := fun _ => Except.error "unreachable" }

def envGenOk : QueryEnv :=
  { indexExists := true
    loadLocal := Except.ok ()
    embedQuery := fun _ => Except.ok [1.0]
    search := fun _ _ => [chunkA, chunkB]
    invokeModel := fun _ => Except.ok
      { outputText := Except.ok " The answer. "
        headers := [(inputTokenHeader, "42"), (outputTokenHeader, "not-a-number")] } }

/-- C4: when no index is persisted, run_query returns the fixed
run-ingest-first response with empty sources and empty usage, and does not
raise. -/
theorem c4_index_missing_short_circuit (q : String) (env : QueryEnv)
    (h : env.indexExists = false) :
    (run_query q env).1 = Except.ok
      { result := indexNotFoundMessage
        source_documents := []
        usage := some UsageDict.empty } := by
  simp [run_query, h]

theorem c4_witness :
    envNoIndex.indexExists = false ∧
    (run_query "any question" envNoIndex).1 = Except.ok
      { result := indexNotFoundMessage
        source_documents := []
        usage := some UsageDict.empty } :=
  ⟨rfl, c4_index_missing_short_circuit "any question" envNoIndex rfl⟩

/-- C9: when no index is persisted, the index-existence check short-circuits
before any remote call, so the trace of embedding/generation invocations is
empty while the index-missing response is produced. -/
theorem c9_no_remote_call_when_index_missing (q : String) (env : QueryEnv)
    (h : env.indexExists = false) :
    (run_query q env).2 = [] ∧
    (run_query q env).1 = Except.ok
      { result := indexNotFoundMessage
        source_documents := []
        usage := some UsageDict.empty } := by
  constructor <;> simp [run_query, h]

theorem c9_witness :
    envNoIndex.indexExists = false ∧
    ((run_query "q" envNoIndex).2 = [] ∧
     (run_query "q" envNoIndex).1 = Except.ok
       { result := indexNotFoundMessage
         source_documents := []
         usage := some UsageDict.empty }) :=
  ⟨rfl, c9_no_remote_call_when_index_missing "q" envNoIndex rfl⟩

/-- C1: when the index exists, retrieval returns at least one chunk and the
generation call raises, run_query returns (does not raise) the fixed
unavailability message with exactly the retrieved chunks as sources and
empty usage. -/
theorem c1_generation_failure_degraded (q : String) (env : QueryEnv)
    (v : List Float) (err : String)
    (hIdx : env.indexExists = true)
    (hLoad : env.loadLocal = Except.ok ())
    (hEmbed : env.embedQuery q = Except.ok v)
    (hNe : env.search v 3 ≠ [])
    (hGen : env.invokeModel (mkPrompt q (env.search v 3)) = Except.error err) :
    (run_query q env).1 = Except.ok
      { result := llmUnavailableMessage
        source_documents := env.search v 3
        usage := some UsageDict.empty } := by
  simp [run_query, hIdx, hLoad, hEmbed, hGen, List.isEmpty_iff, hNe]

theorem c1_witness :
    envGenFail.search [1.0] 3 ≠ [] ∧
    (run_query "q" envGenFail).1 = Except.ok
      { result := llmUnavailableMessage
        source_documents := envGenFail.search [1.0] 3
        usage := some UsageDict.empty } :=
  ⟨by simp [envGenFail], c1_generation_failure_degraded "q" envGenFail [1.0]
    "ConnectionError" rfl rfl rfl (by simp [envGenFail]) rfl⟩

/-- C5: whenever retrieval returns a non-empty chunk list, the prompt sent
to the generation model is the context — the blank-line join of the
retrieved chunk texts in search (ranked) order — followed by the question,
whatever the generation call then does. -/
theorem c5_prompt_is_blank_line_join (q : String) (env : QueryEnv)
    (v : List Float)
    (hIdx : env.indexExists = true)
    (hLoad : env.loadLocal = Except.ok ())
    (hEmbed : env.embedQuery q = Except.ok v)
    (hNe : env.search v 3 ≠ []) :
    (run_query q env).2 =
      [RemoteEvent.embed q,
       RemoteEvent.generate
         ("Context:\n" ++
          String.intercalate "\n\n" ((env.search v 3).map (fun d => d.page_content)) ++
          "\n\nQuestion: " ++ q ++ "\nAnswer:")] := by
  have key : (run_query q env).2 =
      [RemoteEvent.embed q, RemoteEvent.generate (mkPrompt q (env.search v 3))] := by
    cases hGen : env.invokeModel (mkPrompt q (env.search v 3)) with
    | error e =>
      simp [run_query, hIdx, hLoad, hEmbed, List.isEmpty_iff, hNe, hGen]
    | ok g =>
      cases hT : g.outputText with
      | error e =>
        simp [run_query, hIdx, hLoad, hEmbed, List.isEmpty_iff, hNe, hGen, hT]
      | ok t =>
        simp [run_query, hIdx, hLoad, hEmbed, List.isEmpty_iff, hNe, hGen, hT]
  exact key

theorem c5_witness :
    envGenOk.search [1.0] 3 ≠ [] ∧
    (run_query "What?" envGenOk).2 =
      [RemoteEvent.embed "What?",
       RemoteEvent.generate
         ("Context:\n" ++
          String.intercalate "\n\n" ((envGenOk.search [1.0] 3).map (fun d => d.page_content)) ++
          "\n\nQuestion: " ++ "What?" ++ "\nAnswer:")] :=
  ⟨by simp [envGenOk],
   c5_prompt_is_blank_line_join "What?" envGenOk [1.0] rfl rfl rfl (by simp [envGenOk])⟩

/-- C6: on a successful generation call with any response headers, the
query completes (no raise) and each usage field is the total _to_int
conversion of its header: a missing header and a header that is not a
Python integer literal both resolve to None instead of failing the
query. -/
theorem c6_usage_extraction_total (q : String) (env : QueryEnv)
    (v : List Float) (g : GenSuccess) (t : String)
    (hIdx : env.indexExists = true)
    (hLoad : env.loadLocal = Except.ok ())
    (hEmbed : env.embedQuery q = Except.ok v)
    (hNe : env.search v 3 ≠ [])
    (hGen : env.invokeModel (mkPrompt q (env.search v 3)) = Except.ok g)
    (hT : g.outputText = Except.ok t) :
    (run_query q env).1 = Except.ok
      { result := t.trim
        source_documents := env.search v 3
        usage := some (UsageDict.metrics
          { input_tokens := toIntOpt (headerLookup g.headers inputTokenHeader)
            output_tokens := toIntOpt (headerLookup g.headers outputTokenHeader)
            latency_ms := toIntOpt (headerLookup g.headers latencyHeader) }) } ∧
    toIntOpt none = none ∧
    (∀ s : String, pyInt s = none → toIntOpt (some s) = none) := by
  refine ⟨?_, rfl, fun s hs => hs⟩
  simp [run_query, hIdx, hLoad, hEmbed, List.isEmpty_iff, hNe, hGen, hT, extractUsage]

theorem c6_witness :
    envGenOk.search [1.0] 3 ≠ [] ∧
    ((run_query "q" envGenOk).1 = Except.ok
      { result := " The answer. ".trim
        source_documents := envGenOk.search [1.0] 3
        usage := some (UsageDict.metrics
          { input_tokens := toIntOpt (headerLookup
              [(inputTokenHeader, "42"), (outputTokenHeader, "not-a-number")] inputTokenHeader)
            output_tokens := toIntOpt (headerLookup
              [(inputTokenHeader, "42"), (outputTokenHeader, "not-a-number")] outputTokenHeader)
            latency_ms := toIntOpt (headerLookup
              [(inputTokenHeader, "42"), (outputTokenHeader, "not-a-number")] latencyHeader) }) } ∧
     toIntOpt none = none ∧
     (∀ s : String, pyInt s = none → toIntOpt (some s) = none)) :=
  ⟨by simp [envGenOk],
   c6_usage_extraction_total "q" envGenOk [1.0]
     { outputText := Except.ok " The answer. "
       headers := [(inputTokenHeader, "42"), (outputTokenHeader, "not-a-number")] }
     " The answer. " rfl rfl rfl (by simp [envGenOk]) rfl rfl⟩

/-- C3 counterexample: on the empty-search short-circuit path the returned
dict has no "usage" key (modelled as usage = none), so it does not contain
all three Response fields. -/
theorem c3_counterexample :
    (run_query "q" envEmptySearch).1 = Except.ok
      { result := noRelevantMessage, source_documents := [], usage := none } ∧
    (RagResponse.usage
      { result := noRelevantMessage, source_documents := [], usage := none }) = none := by
  constructor
  · simp [run_query, envEmptySearch]
  · rfl

/-- C3 amended: every dict run_query returns carries the "result" and
"source_documents" keys (structure fields), and carries the "usage" key on
every path except the empty-search short-circuit, which returns the fixed
no-relevant-documents answer with empty sources and no "usage" key. -/
theorem c3_amended_usage_on_all_but_empty_search (q : String) (env : QueryEnv)
    (r : RagResponse) (h : (run_query q env).1 = Except.ok r) :
    r.usage.isSome = true ∨
    r = { result := noRelevantMessage, source_documents := [], usage := none } := by
  by_cases hIdx : env.indexExists = false
  · simp [run_query, hIdx] at h
    left; rw [← h]; rfl
  · rw [Bool.not_eq_false] at hIdx
    cases hLoad : env.loadLocal with
    | error e => simp [run_query, hIdx, hLoad] at h
    | ok u =>
      cases hEmbed : env.embedQuery q with
      | error e => simp [run_query, hIdx, hLoad, hEmbed] at h
      | ok v =>
        by_cases hE : (env.search v 3).isEmpty
        · have hnil : env.search v 3 = [] := List.isEmpty_iff.mp hE
          simp [run_query, hIdx, hLoad, hEmbed, hE, hnil] at h
          right; rw [← h]
        · cases hGen : env.invokeModel (mkPrompt q (env.search v 3)) with
          | error e =>
            simp [run_query, hIdx, hLoad, hEmbed, hE, hGen] at h
            left; rw [← h]; rfl
          | ok g =>
            cases hT : g.outputText with
            | error e =>
              simp [run_query, hIdx, hLoad, hEmbed, hE, hGen, hT] at h
            | ok t =>
              simp [run_query, hIdx, hLoad, hEmbed, hE, hGen, hT] at h
              left; rw [← h]; rfl

theorem c3_amended_witness :
    (run_query "q" envGenFail).1 = Except.ok
      { result := llmUnavailableMessage
        source_documents := [chunkA, chunkB]
        usage := some UsageDict.empty } ∧
    ((RagResponse.usage
       { result := llmUnavailableMessage
         source_documents := [chunkA, chunkB]
         usage := some UsageDict.empty }).isSome = true ∨
     ({ result := llmUnavailableMessage
        source_documents := [chunkA, chunkB]
        usage := some UsageDict.empty } : RagResponse)
       = { result := noRelevantMessage, source_documents := [], usage := none }) :=
  ⟨by simp [run_query, envGenFail],
   c3_amended_usage_on_all_but_empty_search "q" envGenFail
     { result := llmUnavailableMessage
       source_documents := [chunkA, chunkB]
       usage := some UsageDict.empty }
     (by simp [run_query, envGenFail])⟩

/-! Concrete ingest-side data for counterexamples and witnesses. -/

def priorIndex : List Chunk := [chunkA]

def ingestEnvEmbedFail : IngestEnv :=
  { buildStore := fun _ => Except.error "ThrottlingException"
    saveOk := true
    disk := some priorIndex }

/-- C2 counterexample: with a previously persisted index and an embedding
step that raises, the CLI ingest run still exits 0 and prints the
completion message — the failure is absorbed inside
create_and_store_embeddings, not surfaced to the caller (the prior index
is indeed left unchanged). -/
theorem c2_counterexample :
    ingestEnvEmbedFail.buildStore [chunkB] = Except.error "ThrottlingException" ∧
    mainIngest (some [chunkB]) ingestEnvEmbedFail =
      { exitCode := 0, message := "Ingestion completed.", disk := some priorIndex } :=
  ⟨rfl, rfl⟩

/-- C2 amended: if embedding (FAISS.from_documents) or index persistence
(save_local) fails during an ingest run, create_and_store_embeddings
absorbs the exception and returns None, the previously persisted index, if
any, is left unchanged, and the CLI ingest run nevertheless completes with
exit code 0 printing the completion message — the failure is logged, not
surfaced to the caller. -/
theorem c2_amended_failure_absorbed (chunks : List Chunk) (env : IngestEnv)
    (hne : chunks ≠ [])
    (hfail : (∃ e, env.buildStore chunks = Except.error e) ∨ env.saveOk = false) :
    (create_and_store_embeddings chunks env).1 = none ∧
    (create_and_store_embeddings chunks env).2 = env.disk ∧
    mainIngest (some chunks) env =
      { exitCode := 0, message := "Ingestion completed.", disk := env.disk } := by
  have hmain : mainIngest (some chunks) env =
      { exitCode := 0, message := "Ingestion completed."
        disk := (create_and_store_embeddings chunks env).2 } := by
    simp [mainIngest, List.isEmpty_iff, hne]
  rcases hfail with ⟨e, he⟩ | hsave
  · refine ⟨?_, ?_, ?_⟩ <;>
      simp [create_and_store_embeddings, he, hmain]
  · cases hb : env.buildStore chunks with
    | error e =>
      refine ⟨?_, ?_, ?_⟩ <;>
        simp [create_and_store_embeddings, hb, hmain]
    | ok vs =>
      refine ⟨?_, ?_, ?_⟩ <;>
        simp [create_and_store_embeddings, hb, hsave, hmain]

theorem c2_amended_witness :
    ([chunkB] ≠ ([] : List Chunk)) ∧
    ((create_and_store_embeddings [chunkB] ingestEnvEmbedFail).1 = none ∧
     (create_and_store_embeddings [chunkB] ingestEnvEmbedFail).2 = ingestEnvEmbedFail.disk ∧
     mainIngest (some [chunkB]) ingestEnvEmbedFail =
       { exitCode := 0, message := "Ingestion completed.", disk := ingestEnvEmbedFail.disk }) :=
  ⟨by simp,
   c2_amended_failure_absorbed [chunkB] ingestEnvEmbedFail (by simp)
     (Or.inl ⟨"ThrottlingException", rfl⟩)⟩

/-! Concrete loading-side data. -/

def docA : Document := { page_content := "alpha text body", source := "a.txt", page := none }

def entryTxtOk : FileEntry :=
  { isFile := true, ext := ".txt", load := Except.ok [docA] }

def entryPdfBroken : FileEntry :=
  { isFile := true, ext := ".pdf", load := Except.error "parse error" }

def fsConfigured : String → DirState := fun p =>
  if p = "cfg-docs" then { present := true, entries := [entryTxtOk] }
  else { present := false, entries := [] }

def loadEnvRun1 : LoadEnv :=
  { documentPath := "cfg-docs", lookupDir := fsConfigured
    chunkSize := 8, chunkOverlap := 2, now := 0 }

def loadEnvRun2 : LoadEnv :=
  { documentPath := "cfg-docs", lookupDir := fsConfigured
    chunkSize := 8, chunkOverlap := 2, now := 12345 }

/-- C8: splitting is deterministic — two runs of load_and_split_documents
whose environments agree on the configured path, the filesystem and the
(chunk_size, chunk_overlap) configuration, but may differ in ambient
process state (the clock), produce identical chunk sequences. -/
theorem c8_chunking_deterministic (e1 e2 : LoadEnv)
    (hp : e1.documentPath = e2.documentPath)
    (hfs : e1.lookupDir = e2.lookupDir)
    (hcs : e1.chunkSize = e2.chunkSize)
    (hco : e1.chunkOverlap = e2.chunkOverlap) :
    load_and_split_documents e1 = load_and_split_documents e2 := by
  rcases e1 with ⟨p1, fs1, cs1, co1, n1⟩
  rcases e2 with ⟨p2, fs2, cs2, co2, n2⟩
  simp only at hp hfs hcs hco
  subst hp; subst hfs; subst hcs; subst hco
  rfl

theorem c8_witness :
    loadEnvRun1.now ≠ loadEnvRun2.now ∧
    load_and_split_documents loadEnvRun1 = load_and_split_documents loadEnvRun2 :=
  ⟨by decide, c8_chunking_deterministic loadEnvRun1 loadEnvRun2 rfl rfl rfl rfl⟩

/-- The glob condition of the path-selection loop, in propositional form. -/
lemma dirCond_iff (d : DirState) :
    ((d.present && !d.entries.isEmpty) = true) ↔ (d.present = true ∧ d.entries ≠ []) := by
  simp [List.isEmpty_iff]

/-- chooseDir tries the configured path first, then the default directory. -/
lemma chooseDir_eq_ite (env : LoadEnv) (hp : env.documentPath ≠ "") :
    chooseDir env =
      (if (env.lookupDir env.documentPath).present = true ∧
          (env.lookupDir env.documentPath).entries ≠ [] then some env.documentPath
       else if (env.lookupDir defaultDocDir).present = true ∧
               (env.lookupDir defaultDocDir).entries ≠ [] then some defaultDocDir
       else none) := by
  unfold chooseDir candidatePaths
  rw [if_pos hp]
  by_cases h1 : (env.lookupDir env.documentPath).present = true ∧
      (env.lookupDir env.documentPath).entries ≠ []
  · rw [if_pos h1]
    have h1' := (dirCond_iff (env.lookupDir env.documentPath)).mpr h1
    simp [List.find?, h1']
  · rw [if_neg h1]
    have h1' : ((env.lookupDir env.documentPath).present &&
        !(env.lookupDir env.documentPath).entries.isEmpty) = false := by
      rw [Bool.eq_false_iff]
      intro hcontra
      exact h1 ((dirCond_iff _).mp hcontra)
    by_cases h2 : (env.lookupDir defaultDocDir).present = true ∧
        (env.lookupDir defaultDocDir).entries ≠ []
    · rw [if_pos h2]
      have h2' := (dirCond_iff (env.lookupDir defaultDocDir)).mpr h2
      simp [List.find?, h1', h2']
    · rw [if_neg h2]
      have h2' : ((env.lookupDir defaultDocDir).present &&
          !(env.lookupDir defaultDocDir).entries.isEmpty) = false := by
        rw [Bool.eq_false_iff]
        intro hcontra
        exact h2 ((dirCond_iff _).mp hcontra)
      simp [List.find?, h1', h2']

/-- C10: load_and_split_documents tries the configured DOCUMENT_PATH first
and falls back to the project-root documents directory exactly when the
configured directory is absent or has no entries; the no-documents signal
(None) is returned exactly when no candidate directory exists with
entries, or the chosen directory's entries yield no loadable document. -/
theorem c10_fallback_directory (env : LoadEnv) (hp : env.documentPath ≠ "") :
    (((env.lookupDir env.documentPath).present = true ∧
        (env.lookupDir env.documentPath).entries ≠ []) →
      chooseDir env = some env.documentPath) ∧
    ((¬ ((env.lookupDir env.documentPath).present = true ∧
         (env.lookupDir env.documentPath).entries ≠ [])) →
      chooseDir env =
        (if (env.lookupDir defaultDocDir).present = true ∧
            (env.lookupDir defaultDocDir).entries ≠ []
         then some defaultDocDir else none)) ∧
    (load_and_split_documents env = none ↔
      (chooseDir env = none ∨
       ∃ p, chooseDir env = some p ∧ collectDocs (env.lookupDir p) = [])) := by
  refine ⟨?_, ?_, ?_⟩
  · intro h1
    rw [chooseDir_eq_ite env hp, if_pos h1]
  · intro hno
    rw [chooseDir_eq_ite env hp, if_neg hno]
  · cases hc : chooseDir env with
    | none => simp [load_and_split_documents, hc]
    | some p =>
      simp [load_and_split_documents, hc, List.isEmpty_iff]

def fsFallbackOnly : String → DirState := fun p =>
  if p = defaultDocDir then { present := true, entries := [entryTxtOk, entryPdfBroken] }
  else { present := false, entries := [] }

def loadEnvFallback : LoadEnv :=
  { documentPath := "missing-dir", lookupDir := fsFallbackOnly
    chunkSize := 8, chunkOverlap := 2, now := 0 }

theorem c10_witness :
    loadEnvFallback.documentPath ≠ "" ∧
    ((((loadEnvFallback.lookupDir loadEnvFallback.documentPath).present = true ∧
        (loadEnvFallback.lookupDir loadEnvFallback.documentPath).entries ≠ []) →
       chooseDir loadEnvFallback = some loadEnvFallback.documentPath) ∧
     ((¬ ((loadEnvFallback.lookupDir loadEnvFallback.documentPath).present = true ∧
          (loadEnvFallback.lookupDir loadEnvFallback.documentPath).entries ≠ [])) →
       chooseDir loadEnvFallback =
         (if (loadEnvFallback.lookupDir defaultDocDir).present = true ∧
             (loadEnvFallback.lookupDir defaultDocDir).entries ≠ []
          then some defaultDocDir else none)) ∧
     (load_and_split_documents loadEnvFallback = none ↔
       (chooseDir loadEnvFallback = none ∨
        ∃ p, chooseDir loadEnvFallback = some p ∧
          collectDocs (loadEnvFallback.lookupDir p) = []))) :=
  ⟨by decide, c10_fallback_directory loadEnvFallback (by decide)⟩

/-- The exact-overlap relation between the character lists of consecutive
chunks: the earlier chunk is full-length and its trailing overlap-many
characters are the next chunk's leading characters. -/
def overlapRel (size overlap : Nat) (a b : List Char) : Prop :=
  a.length = size ∧ a.drop (size - overlap) = b.take overlap ∧ overlap ≤ b.length

lemma take_drop_window (size overlap : Nat) (h : overlap ≤ size) (s : List Char) :
    (s.take size).drop (size - overlap) = (s.drop (size - overlap)).take overlap := by
  rw [List.take_drop]
  have hsum : size - overlap + overlap = size := by omega
  rw [hsum]

lemma chunkWindowsAux_chain (size overlap : Nat) (h : overlap < size) :
    ∀ (fuel : Nat) (s : List Char),
      List.Chain' (overlapRel size overlap) (chunkWindowsAux size (size - overlap) fuel s) := by
  intro fuel
  induction fuel with
  | zero => intro s; exact List.chain'_nil
  | succ n ih =>
    intro s
    rw [chunkWindowsAux]
    by_cases hs : s.length ≤ size
    · rw [if_pos hs]
      exact List.chain'_singleton s
    · rw [if_neg hs]
      push_neg at hs
      rw [List.chain'_cons']
      refine ⟨?_, ih (s.drop (size - overlap))⟩
      intro y hy
      cases n with
      | zero => simp [chunkWindowsAux] at hy
      | succ m =>
        rw [chunkWindowsAux] at hy
        by_cases hs' : (s.drop (size - overlap)).length ≤ size
        · rw [if_pos hs'] at hy
          simp at hy
          subst hy
          refine ⟨?_, ?_, ?_⟩
          · rw [List.length_take]; omega
          · exact take_drop_window size overlap (le_of_lt h) s
          · rw [List.length_drop]; omega
        · rw [if_neg hs'] at hy
          simp at hy
          subst hy
          push_neg at hs'
          refine ⟨?_, ?_, ?_⟩
          · rw [List.length_take]; omega
          · rw [List.take_take, Nat.min_eq_left (le_of_lt h)]
            exact take_drop_window size overlap (le_of_lt h) s
          · rw [List.length_take]; omega

/-- C7: for every configuration with overlap < size, every non-final chunk
cut from a document is full-length and shares its trailing overlap-many
characters with the leading characters of the next chunk.  The chunker is
modelled from the spec (fixed windows, no separator snapping), since the
splitter itself is third-party library code absent from src/. -/
theorem c7_consecutive_chunks_share_overlap (size overlap : Nat) (d : Document)
    (h : overlap < size) :
    List.Chain' (fun a b : Chunk =>
        a.page_content.length = size ∧
        a.page_content.toList.drop (size - overlap) = b.page_content.toList.take overlap ∧
        overlap ≤ b.page_content.length)
      (chunkDoc size overlap d) := by
  unfold chunkDoc chunkWindows
  rw [List.chain'_map]
  refine List.Chain'.imp ?_ (chunkWindowsAux_chain size overlap h _ _)
  intro a b hab
  rcases hab with ⟨h1, h2, h3⟩
  exact ⟨h1, h2, h3⟩

def docW : Document := { page_content := "abcde", source := "w.txt", page := none }

theorem c7_witness :
    (1 : Nat) < 3 ∧
    List.Chain' (fun a b : Chunk =>
        a.page_content.length = 3 ∧
        a.page_content.toList.drop (3 - 1) = b.page_content.toList.take 1 ∧
        1 ≤ b.page_content.length)
      (chunkDoc 3 1 docW) :=
  ⟨by decide, c7_consecutive_chunks_share_overlap 3 1 docW (by decide)⟩

end Rag
